import Mathlib

/-!
Shallow embedding of `src/cli/install.ts` of oh-my-opencode-slim.

The installer orchestrates a pipeline of delegated steps against external
collaborators (detection, registration, persistence).  Collaborator calls and
terminal output are modelled as an explicit event trace; each collaborator is
modelled as a fixed field of an environment record (the value it resolves to
during the run), mirroring the fact that the orchestrator treats collaborators
as opaque.  Awaited calls that resolve normally are modelled by their resolved
value; the one place the spec talks about a throwing read (the stdin reader in
`askYesNo`) is modelled with an explicit `Except` outcome.
-/

namespace OMOS

/-- ANSI constants from the head of install.ts. -/
def GREEN : String := "\x1b[32m"

def BLUE : String := "\x1b[34m"

def YELLOW : String := "\x1b[33m"

def RED : String := "\x1b[31m"

def BOLD : String := "\x1b[1m"

def DIM : String := "\x1b[2m"

def RESET : String := "\x1b[0m"

/-- SYMBOLS.check -/
def symCheck : String := GREEN ++ "✓" ++ RESET

/-- SYMBOLS.cross -/
def symCross : String := RED ++ "✗" ++ RESET

/-- SYMBOLS.arrow -/
def symArrow : String := BLUE ++ "→" ++ RESET

/-- SYMBOLS.bullet -/
def symBullet : String := DIM ++ "•" ++ RESET

/-- SYMBOLS.info -/
def symInfo : String := BLUE ++ "ℹ" ++ RESET

/-- SYMBOLS.warn -/
def symWarn : String := YELLOW ++ "⚠" ++ RESET

/-- SYMBOLS.star -/
def symStar : String := YELLOW ++ "★" ++ RESET

/-- InstallConfig from types.ts as used by install.ts: the resolved
CanonicalConfig, three definite booleans. -/
structure InstallConfig where
  hasAntigravity : Bool
  hasOpenAI : Bool
  hasCerebras : Bool
  deriving DecidableEq, Repr

/-- DetectedConfig: snapshot of the existing host configuration. -/
structure DetectedConfig where
  hasAntigravity : Bool
  hasOpenAI : Bool
  hasCerebras : Bool
  isInstalled : Bool
  deriving DecidableEq, Repr

/-- StepResult: outcome of one delegated step. -/
structure StepResult where
  success : Bool
  error : Option String
  configPath : Option String
  deriving DecidableEq, Repr

/-- Modelled from the spec: types.ts is not under src/.  RawArguments per
spec section 3: each provider toggle is a tri-state raw flag value
(`yes`/`no`/absent — absent is `none`, a present raw string is `some`),
plus the mode flag selecting interactive vs non-interactive.  The raw value
type must admit arbitrary strings, since `validateNonTuiArgs` in install.ts
rejects values outside {yes, no} and interpolates the raw value into its
error message. -/
structure InstallArgs where
  tui : Bool
  antigravity : Option String
  openai : Option String
  cerebras : Option String
  deriving DecidableEq, Repr

/-- The external collaborators imported from config-manager, modelled as the
values each call resolves to during one run (the orchestrator treats them as
opaque; none of their internals are part of this core). -/
structure Collaborators where
  detectCurrentConfig : DetectedConfig
  isOpenCodeInstalled : Bool
  getOpenCodeVersion : Option String
  addPluginToOpenCodeConfig : StepResult
  addAuthPlugins : InstallConfig → StepResult
  addProviderConfig : InstallConfig → StepResult
  writeLiteConfig : InstallConfig → StepResult

/-- One observable event of a run: a collaborator invocation or one call into
the terminal output sink (the print helpers of install.ts, and bare
console.log lines). -/
inductive Event where
  | header (isUpdate : Bool)
  | stepLine (step : Nat) (total : Nat) (message : String)
  | successLine (message : String)
  | errorLine (message : String)
  | infoLine (message : String)
  | warnLine (message : String)
  | logLine (message : String)
  | promptLine (message : String)
  | callDetectCurrentConfig
  | callIsOpenCodeInstalled
  | callGetOpenCodeVersion
  | callAddPluginToOpenCodeConfig
  | callAddAuthPlugins
  | callAddProviderConfig
  | callWriteLiteConfig
  deriving DecidableEq, Repr

/-- printHeader: renders the mode line ("Install" vs "Update"). The rendering
layer is an opaque sink, so the event records the framing argument. -/
def printHeader (isUpdate : Bool) : List Event :=
  [Event.header isUpdate]

/-- printStep -/
def printStep (step : Nat) (total : Nat) (message : String) : List Event :=
  [Event.stepLine step total message]

/-- printSuccess -/
def printSuccess (message : String) : List Event :=
  [Event.successLine message]

/-- printError -/
def printErrorLine (message : String) : List Event :=
  [Event.errorLine message]

/-- printInfo -/
def printInfoLine (message : String) : List Event :=
  [Event.infoLine message]

/-- printWarning -/
def printWarning (message : String) : List Event :=
  [Event.warnLine message]

/-- JS template-literal interpolation of a possibly-undefined string:
`undefined` renders as the text "undefined". -/
def tsInterp (value : Option String) : String :=
  value.getD "undefined"

/-- formatConfigSummary from install.ts. -/
def formatConfigSummary (config : InstallConfig) : String :=
  String.intercalate "\n"
    [ BOLD ++ "Configuration Summary" ++ RESET
    , ""
    , "  " ++ (if config.hasAntigravity then symCheck else DIM ++ "○" ++ RESET) ++ " Antigravity"
    , "  " ++ (if config.hasOpenAI then symCheck else DIM ++ "○" ++ RESET) ++ " OpenAI"
    , "  " ++ (if config.hasCerebras then symCheck else DIM ++ "○" ++ RESET) ++ " Cerebras"
    ]

/-- The result record of validateNonTuiArgs. -/
structure ValidationResult where
  valid : Bool
  errors : List String
  deriving DecidableEq, Repr

/-- validateNonTuiArgs from install.ts: pushes one error message per field
that is undefined or holds a value outside {yes, no}, in fixed field order,
and is valid iff the collected list is empty. -/
def validateNonTuiArgs (args : InstallArgs) : ValidationResult :=
  let errors : List String := []
  let errors := errors ++
    (match args.antigravity with
     | none => ["--antigravity is required (values: yes, no)"]
     | some v =>
       if !(["yes", "no"].contains v) then
         ["Invalid --antigravity value: " ++ v ++ " (expected: yes, no)"]
       else [])
  let errors := errors ++
    (match args.openai with
     | none => ["--openai is required (values: yes, no)"]
     | some v =>
       if !(["yes", "no"].contains v) then
         ["Invalid --openai value: " ++ v ++ " (expected: yes, no)"]
       else [])
  let errors := errors ++
    (match args.cerebras with
     | none => ["--cerebras is required (values: yes, no)"]
     | some v =>
       if !(["yes", "no"].contains v) then
         ["Invalid --cerebras value: " ++ v ++ " (expected: yes, no)"]
       else [])
  { valid := errors.length == 0, errors := errors }

/-- argsToConfig from install.ts. -/
def argsToConfig (args : InstallArgs) : InstallConfig :=
  { hasAntigravity := args.antigravity == some "yes"
  , hasOpenAI := args.openai == some "yes"
  , hasCerebras := args.cerebras == some "yes" }

/-- The record returned by detectedToInitialValues. -/
structure InitialValues where
  antigravity : String
  openai : String
  cerebras : String
  deriving DecidableEq, Repr

/-- detectedToInitialValues from install.ts. -/
def detectedToInitialValues (detected : DetectedConfig) : InitialValues :=
  { antigravity := if detected.hasAntigravity then "yes" else "no"
  , openai := if detected.hasOpenAI then "yes" else "no"
  , cerebras := if detected.hasCerebras then "yes" else "no" }

/-- `.trim().toLowerCase()` expressed over the character list: trims
whitespace from both ends and lower-cases each character.  (The library's
positional String.trim/String.toLower recursions do not reduce in the
kernel, so the embedding works on the underlying list of characters.) -/
def jsTrimLower (v : String) : String :=
  String.mk
    (((v.data.dropWhile Char.isWhitespace).reverse.dropWhile Char.isWhitespace).reverse.map
      Char.toLower)

/-- The value delivered by one read of the stdin stream when the read
resolves normally: `some` decoded chunk, or `none` when the stream closed
without data (reader.read resolving with value undefined), normalized as on
line 120 of install.ts. -/
def decodeAnswer (value : Option String) : String :=
  match value with
  | some v => jsTrimLower v
  | none => ""

/-- Lines 120-125 of askYesNo: normalize the chunk (decode, trim, lower-case)
and map it to the returned answer. -/
def resolveAnswer (defaultValue : String) (value : Option String) : String :=
  let answer := decodeAnswer value
  if answer = "" ∨ answer = "\n" then defaultValue
  else if answer = "y" ∨ answer = "yes" then "yes"
  else if answer = "n" ∨ answer = "no" then "no"
  else defaultValue

/-- The prompt write at the head of askYesNo, with its default hint. -/
def askPromptEvents (prompt : String) (defaultValue : String) : List Event :=
  let defaultHint := if defaultValue = "yes" then "[Y/n]" else "[y/N]"
  [Event.promptLine (BLUE ++ prompt ++ RESET ++ " " ++ defaultHint ++ ": ")]

/-- The stdin reader protocol inside askYesNo. -/
inductive ReaderEvent where
  | acquire
  | read
  | release
  deriving DecidableEq, Repr

/-- askYesNo from install.ts, with the reader protocol made explicit.
`readOutcome` is the outcome of `await reader.read()`: `.ok` with the decoded
chunk (or `none` when the stream closed) when the promise resolves, `.error`
when it rejects.  The three statements run in order: getReader (acquire),
read, releaseLock (release); there is no try/finally, so when the read
rejects, the async function propagates the rejection and the releaseLock
statement never runs. -/
def askYesNo (prompt : String) (defaultValue : String)
    (readOutcome : Except Unit (Option String)) :
    List Event × List ReaderEvent × Except Unit String :=
  let promptEvents := askPromptEvents prompt defaultValue
  match readOutcome with
  | Except.error e =>
    (promptEvents, [ReaderEvent.acquire, ReaderEvent.read], Except.error e)
  | Except.ok value =>
    (promptEvents, [ReaderEvent.acquire, ReaderEvent.read, ReaderEvent.release],
     Except.ok (resolveAnswer defaultValue value))

/-- runTuiMode from install.ts: three fixed questions seeded from the
detected configuration.  `in1`, `in2`, `in3` are the chunks delivered by the
three stdin reads (each read resolving normally; `none` = stream closed).
The TS return type admits null, hence `Option InstallConfig`, but the single
return statement always builds a config. -/
def runTuiMode (detected : DetectedConfig) (in1 in2 in3 : Option String) :
    List Event × Option InstallConfig :=
  let initial := detectedToInitialValues detected
  let t := [Event.logLine (BOLD ++ "Question 1/3:" ++ RESET)]
  let t := t ++ askPromptEvents "Do you have an Antigravity subscription?" initial.antigravity
  let antigravity := resolveAnswer initial.antigravity in1
  let t := t ++ [Event.logLine ""]
  let t := t ++ [Event.logLine (BOLD ++ "Question 2/3:" ++ RESET)]
  let t := t ++ askPromptEvents "Do you have access to OpenAI API?" initial.openai
  let openai := resolveAnswer initial.openai in2
  let t := t ++ [Event.logLine ""]
  let t := t ++ [Event.logLine (BOLD ++ "Question 3/3:" ++ RESET)]
  let t := t ++ askPromptEvents "Do you have access to Cerebras API?" initial.cerebras
  let cerebras := resolveAnswer initial.cerebras in3
  let t := t ++ [Event.logLine ""]
  (t, some
    { hasAntigravity := antigravity == "yes"
    , hasOpenAI := openai == "yes"
    , hasCerebras := cerebras == "yes" })

/-- The tail of runInstall after the conditional Antigravity block: step 5
(writeLiteConfig), the summary, the no-providers post-condition check and the
success block.  `step` is the value of the step counter at this point (5 when
the conditional branch ran, 3 otherwise). -/
def runInstallTail (env : Collaborators) (config : InstallConfig)
    (t : List Event) (step : Nat) (totalSteps : Nat) (isUpdate : Bool) :
    List Event × Nat :=
  let t := t ++ printStep step totalSteps "Writing oh-my-opencode-slim configuration..."
    ++ [Event.callWriteLiteConfig]
  let liteResult := env.writeLiteConfig config
  if !liteResult.success then
    (t ++ printErrorLine ("Failed: " ++ tsInterp liteResult.error), 1)
  else
    let t := t ++ printSuccess
      ("Config written " ++ symArrow ++ " " ++ DIM ++ tsInterp liteResult.configPath ++ RESET)
    let t := t ++ [Event.logLine "", Event.logLine (formatConfigSummary config), Event.logLine ""]
    if !config.hasAntigravity && !config.hasOpenAI && !config.hasCerebras then
      (t ++ printWarning "No providers configured. At least one provider is required.", 1)
    else
      let t := t ++
        [ Event.logLine (symStar ++ " " ++ BOLD ++ GREEN ++
            (if isUpdate then "Configuration updated!" else "Installation complete!") ++ RESET)
        , Event.logLine ""
        , Event.logLine (BOLD ++ "Next steps:" ++ RESET)
        , Event.logLine ""
        , Event.logLine "  1. Authenticate with your providers:"
        , Event.logLine ("     " ++ BLUE ++ "$ opencode auth login" ++ RESET)
        , Event.logLine ""
        , Event.logLine "  2. Start OpenCode:"
        , Event.logLine ("     " ++ BLUE ++ "$ opencode" ++ RESET)
        , Event.logLine ""
        ]
      (t, 0)

/-- runInstall from install.ts.  Returns the event trace and the numeric
exit outcome.  The step counter starts at 1 and is incremented at each
printStep, so the literals 1, 2, 3, 4 appear here in place of step++. -/
def runInstall (env : Collaborators) (_args : InstallArgs) (config : InstallConfig) :
    List Event × Nat :=
  let detected := env.detectCurrentConfig
  let isUpdate := detected.isInstalled
  let t := [Event.callDetectCurrentConfig] ++ printHeader isUpdate
  let totalSteps := if config.hasAntigravity then 5 else 3
  -- Step 1: Check OpenCode
  let t := t ++ printStep 1 totalSteps "Checking OpenCode installation..."
    ++ [Event.callIsOpenCodeInstalled]
  if !env.isOpenCodeInstalled then
    (t ++ printErrorLine "OpenCode is not installed on this system."
       ++ printInfoLine "Visit https://opencode.ai/docs for installation instructions", 1)
  else
    let version := env.getOpenCodeVersion
    let t := t ++ [Event.callGetOpenCodeVersion]
      ++ printSuccess ("OpenCode " ++ version.getD "" ++ " detected")
    -- Step 2: Add plugin
    let t := t ++ printStep 2 totalSteps "Adding oh-my-opencode-slim plugin..."
      ++ [Event.callAddPluginToOpenCodeConfig]
    let pluginResult := env.addPluginToOpenCodeConfig
    if !pluginResult.success then
      (t ++ printErrorLine ("Failed: " ++ tsInterp pluginResult.error), 1)
    else
      let t := t ++ printSuccess
        ("Plugin added " ++ symArrow ++ " " ++ DIM ++ tsInterp pluginResult.configPath ++ RESET)
      -- Step 3-4: Auth plugins and provider config (if Antigravity)
      if config.hasAntigravity then
        let t := t ++ printStep 3 totalSteps "Adding auth plugins..."
          ++ [Event.callAddAuthPlugins]
        let authResult := env.addAuthPlugins config
        if !authResult.success then
          (t ++ printErrorLine ("Failed: " ++ tsInterp authResult.error), 1)
        else
          let t := t ++ printSuccess
            ("Auth plugins configured " ++ symArrow ++ " " ++ DIM ++ tsInterp authResult.configPath ++ RESET)
          let t := t ++ printStep 4 totalSteps "Adding provider configurations..."
            ++ [Event.callAddProviderConfig]
          let providerResult := env.addProviderConfig config
          if !providerResult.success then
            (t ++ printErrorLine ("Failed: " ++ tsInterp providerResult.error), 1)
          else
            let t := t ++ printSuccess
              ("Providers configured " ++ symArrow ++ " " ++ DIM ++ tsInterp providerResult.configPath ++ RESET)
            runInstallTail env config t 5 totalSteps isUpdate
      else
        runInstallTail env config t 3 totalSteps isUpdate

/-- install from install.ts: the exported entry point.  `in1`, `in2`, `in3`
are the chunks the three interactive reads would deliver (unused in non-TUI
mode). -/
def install (env : Collaborators) (args : InstallArgs) (in1 in2 in3 : Option String) :
    List Event × Nat :=
  if !args.tui then
    -- Non-TUI mode: validate args
    let validation := validateNonTuiArgs args
    if !validation.valid then
      let t := printHeader false ++ printErrorLine "Validation failed:"
      let t := t ++ validation.errors.map (fun err => Event.logLine ("  " ++ symBullet ++ " " ++ err))
      let t := t ++ [Event.logLine ""]
        ++ printInfoLine "Usage: bunx oh-my-opencode-slim install --no-tui --antigravity=<yes|no> --openai=<yes|no> --cerebras=<yes|no>"
        ++ [Event.logLine ""]
      (t, 1)
    else
      let config := argsToConfig args
      runInstall env args config
  else
    -- TUI mode
    let detected := env.detectCurrentConfig
    let t := [Event.callDetectCurrentConfig] ++ printHeader detected.isInstalled
    let t := t ++ printStep 1 1 "Checking OpenCode installation..."
      ++ [Event.callIsOpenCodeInstalled]
    if !env.isOpenCodeInstalled then
      (t ++ printErrorLine "OpenCode is not installed on this system."
         ++ printInfoLine "Visit https://opencode.ai/docs for installation instructions", 1)
    else
      let t := t ++ [Event.callGetOpenCodeVersion]
        ++ printSuccess ("OpenCode " ++ env.getOpenCodeVersion.getD "" ++ " detected")
        ++ [Event.logLine ""]
      match runTuiMode detected in1 in2 in3 with
      | (tTui, none) => (t ++ tTui, 1)
      | (tTui, some config) =>
        let r := runInstall env args config
        (t ++ tTui ++ r.1, r.2)

/-! ### Observation helpers over traces -/

/-- The event is the invocation of detectCurrentConfig. -/
def isDetectCall : Event → Bool
  | Event.callDetectCurrentConfig => true
  | _ => false

/-- The event is the invocation of isOpenCodeInstalled. -/
def isInstalledCall : Event → Bool
  | Event.callIsOpenCodeInstalled => true
  | _ => false

/-- The event is the invocation of getOpenCodeVersion. -/
def isVersionCall : Event → Bool
  | Event.callGetOpenCodeVersion => true
  | _ => false

/-- The event is the invocation of addPluginToOpenCodeConfig. -/
def isPluginCall : Event → Bool
  | Event.callAddPluginToOpenCodeConfig => true
  | _ => false

/-- The event is the invocation of addAuthPlugins. -/
def isAuthCall : Event → Bool
  | Event.callAddAuthPlugins => true
  | _ => false

/-- The event is the invocation of addProviderConfig. -/
def isProviderCall : Event → Bool
  | Event.callAddProviderConfig => true
  | _ => false

/-- The event is the invocation of writeLiteConfig. -/
def isLiteCall : Event → Bool
  | Event.callWriteLiteConfig => true
  | _ => false

/-- The event is the invocation of any registration/persistence collaborator
(addPluginToOpenCodeConfig, addAuthPlugins, addProviderConfig,
writeLiteConfig). -/
def isRegPersistCall : Event → Bool
  | Event.callAddPluginToOpenCodeConfig => true
  | Event.callAddAuthPlugins => true
  | Event.callAddProviderConfig => true
  | Event.callWriteLiteConfig => true
  | _ => false

/-- The framing argument of a header-rendering event. -/
def headerFraming : Event → Option Bool
  | Event.header b => some b
  | _ => none

/-- The framings of the header renderings of a trace, in order. -/
def headersOf (t : List Event) : List Bool :=
  t.filterMap headerFraming

/-! ### Spec-side characterizations used by the validation claim -/

/-- A raw flag value offends validation: it is missing, or holds a value
outside {yes, no}. -/
def offendingField (value : Option String) : Bool :=
  match value with
  | none => true
  | some v => !(["yes", "no"].contains v)

/-- Number of offending fields among the three provider flags. -/
def numOffending (args : InstallArgs) : Nat :=
  (if offendingField args.antigravity then 1 else 0)
    + (if offendingField args.openai then 1 else 0)
    + (if offendingField args.cerebras then 1 else 0)

/-- The error messages validation owes to one flag: exactly one when the
field offends (the required-message when missing, the invalid-message
otherwise), none when it is valid. -/
def fieldErrors (flag : String) (value : Option String) : List String :=
  match value with
  | none => ["--" ++ flag ++ " is required (values: yes, no)"]
  | some v =>
    if !(["yes", "no"].contains v) then
      ["Invalid --" ++ flag ++ " value: " ++ v ++ " (expected: yes, no)"]
    else []

/-! ### Concrete fixtures -/

/-- A successful step result. -/
def okResult : StepResult :=
  { success := true, error := none, configPath := some "/home/user/.config/opencode/opencode.json" }

/-- A failing step result with an opaque error string. -/
def failResult : StepResult :=
  { success := false, error := some "permission denied", configPath := none }

/-- A detected configuration with nothing installed. -/
def detectedFresh : DetectedConfig :=
  { hasAntigravity := false, hasOpenAI := false, hasCerebras := false, isInstalled := false }

/-- Collaborators where the host is installed and every delegated step
succeeds. -/
def envAllOk : Collaborators :=
  { detectCurrentConfig := detectedFresh
  , isOpenCodeInstalled := true
  , getOpenCodeVersion := some "0.5.0"
  , addPluginToOpenCodeConfig := okResult
  , addAuthPlugins := fun _ => okResult
  , addProviderConfig := fun _ => okResult
  , writeLiteConfig := fun _ => okResult }

/-- Collaborators where the host is not installed. -/
def envNotInstalled : Collaborators :=
  { envAllOk with isOpenCodeInstalled := false }

/-- Collaborators where plugin registration fails. -/
def envPluginFail : Collaborators :=
  { envAllOk with addPluginToOpenCodeConfig := failResult }

/-- Collaborators where the auth-plugins step fails. -/
def envAuthFail : Collaborators :=
  { envAllOk with addAuthPlugins := fun _ => failResult }

/-- Collaborators where the provider-config step fails. -/
def envProviderFail : Collaborators :=
  { envAllOk with addProviderConfig := fun _ => failResult }

/-- Collaborators where the lite-config write fails. -/
def envLiteFail : Collaborators :=
  { envAllOk with writeLiteConfig := fun _ => failResult }

/-- A default argument record in TUI mode. -/
def argsTui : InstallArgs :=
  { tui := true, antigravity := none, openai := none, cerebras := none }

/-- A valid non-TUI argument record enabling only Antigravity. -/
def argsAnti : InstallArgs :=
  { tui := false, antigravity := some "yes", openai := some "no", cerebras := some "no" }

/-- A canonical configuration with only Antigravity enabled. -/
def cfgAnti : InstallConfig :=
  { hasAntigravity := true, hasOpenAI := false, hasCerebras := false }

/-- A canonical configuration with every capability disabled. -/
def cfgNone : InstallConfig :=
  { hasAntigravity := false, hasOpenAI := false, hasCerebras := false }

/-! ### Claims -/

/-- C5: in non-interactive mode, validation collects all violations rather
than stopping at the first: the error list decomposes into per-field
sublists in field order, its length equals the number of offending fields
(exactly one message per offending field), and validation fails exactly when
at least one of the three flags is missing or holds a value outside
{yes, no}. -/
theorem validateNonTuiArgs_one_message_per_offending_field (args : InstallArgs) :
    (validateNonTuiArgs args).errors =
        fieldErrors "antigravity" args.antigravity
          ++ fieldErrors "openai" args.openai
          ++ fieldErrors "cerebras" args.cerebras
      ∧ (validateNonTuiArgs args).errors.length = numOffending args
      ∧ ((validateNonTuiArgs args).valid = false ↔ numOffending args ≠ 0) := by
  obtain ⟨tui, a, o, c⟩ := args
  refine ⟨?_, ?_, ?_⟩ <;>
    cases a <;> cases o <;> cases c <;>
      simp [validateNonTuiArgs, fieldErrors, numOffending, offendingField] <;>
      split_ifs <;> simp_all

/-- C5 witness: with `--antigravity` missing and `--openai=maybe`, validation
fails with exactly the two per-field messages. -/
theorem validateNonTuiArgs_witness :
    (validateNonTuiArgs
        { tui := false, antigravity := none, openai := some "maybe", cerebras := some "no" }).errors.length = 2
      ∧ (validateNonTuiArgs
          { tui := false, antigravity := none, openai := some "maybe", cerebras := some "no" }).valid = false := by
  have h := validateNonTuiArgs_one_message_per_offending_field
    { tui := false, antigravity := none, openai := some "maybe", cerebras := some "no" }
  exact ⟨h.2.1.trans (by decide), h.2.2.mpr (by decide)⟩

/-- C6: an interactive answer, after decoding/trimming/lower-casing, resolves
to the seeded default on an empty line or a closed stream, to "yes" on y/yes
(any case, handled by the lower-casing), to "no" on n/no, and silently to the
default on any other input; `askYesNo` returns this resolution whenever the
read resolves normally. -/
theorem askYesNo_resolves_answers (p d : String) (v : Option String) :
    (askYesNo p d (Except.ok v)).2.2 = Except.ok (resolveAnswer d v)
      ∧ (v = none → resolveAnswer d v = d)
      ∧ (decodeAnswer v = "" → resolveAnswer d v = d)
      ∧ (decodeAnswer v = "y" ∨ decodeAnswer v = "yes" → resolveAnswer d v = "yes")
      ∧ (decodeAnswer v = "n" ∨ decodeAnswer v = "no" → resolveAnswer d v = "no")
      ∧ (decodeAnswer v ≠ "" ∧ decodeAnswer v ≠ "y" ∧ decodeAnswer v ≠ "yes"
            ∧ decodeAnswer v ≠ "n" ∧ decodeAnswer v ≠ "no" → resolveAnswer d v = d) := by
  refine ⟨rfl, ?_, ?_, ?_, ?_, ?_⟩
  · rintro rfl
    simp [resolveAnswer, decodeAnswer]
  · intro h
    simp [resolveAnswer, h]
  · rintro (h | h) <;> simp [resolveAnswer, h]
  · rintro (h | h) <;> simp [resolveAnswer, h]
  · rintro ⟨h1, h2, h3, h4, h5⟩
    have hn : decodeAnswer v ≠ "\n" ∨ decodeAnswer v = "\n" := (em _).symm
    rcases hn with hn | hn
    · simp [resolveAnswer, h1, h2, h3, h4, h5, hn]
    · simp [resolveAnswer, hn]

/-- C6 witness: a mixed-case "Y" with surrounding whitespace resolves to
"yes" against a "no" default; a closed stream resolves to the default. -/
theorem askYesNo_resolves_answers_witness :
    decodeAnswer (some " Y\n") = "y"
      ∧ resolveAnswer "no" (some " Y\n") = "yes"
      ∧ resolveAnswer "yes" none = "yes" := by
  refine ⟨by decide, ?_, ?_⟩
  · exact (askYesNo_resolves_answers "q" "no" (some " Y\n")).2.2.2.1 (Or.inl (by decide))
  · exact (askYesNo_resolves_answers "q" "yes" none).2.1 rfl

/-- C8 counterexample: when the read itself throws (the read promise
rejects), the reader is NOT released: there is no try/finally around
reader.read, so releaseLock is skipped and the acquired reader leaks. -/
theorem askYesNo_release_counterexample :
    ¬ ReaderEvent.release ∈
        (askYesNo "Do you have an Antigravity subscription?" "no" (Except.error ())).2.1 := by
  decide

/-- C8 amended: the reader acquired for an interactive read is released after
the read whenever the read resolves normally (including a closed stream), but
when the read itself throws the release is skipped and the rejection
propagates. -/
theorem askYesNo_release_amended (p d : String) (v : Option String) :
    (askYesNo p d (Except.ok v)).2.1
        = [ReaderEvent.acquire, ReaderEvent.read, ReaderEvent.release]
      ∧ (askYesNo p d (Except.error ())).2.1 = [ReaderEvent.acquire, ReaderEvent.read] :=
  ⟨rfl, rfl⟩

/-- C10: runTuiMode always returns a configuration and never null once the
three questions are answered, so the null-result branch of install is
unreachable. -/
theorem runTuiMode_always_some (detected : DetectedConfig) (in1 in2 in3 : Option String) :
    (runTuiMode detected in1 in2 in3).2.isSome = true := rfl

/-! ### Trace characterizations of runInstall, one per control-flow branch -/

/-- The events of runInstall up to and including the preflight call. -/
def preflightTrace (env : Collaborators) (config : InstallConfig) : List Event :=
  [ Event.callDetectCurrentConfig
  , Event.header env.detectCurrentConfig.isInstalled
  , Event.stepLine 1 (if config.hasAntigravity then 5 else 3) "Checking OpenCode installation..."
  , Event.callIsOpenCodeInstalled ]

/-- The events from the version query up to and including the plugin
registration call. -/
def pluginStepTrace (env : Collaborators) (config : InstallConfig) : List Event :=
  [ Event.callGetOpenCodeVersion
  , Event.successLine ("OpenCode " ++ env.getOpenCodeVersion.getD "" ++ " detected")
  , Event.stepLine 2 (if config.hasAntigravity then 5 else 3) "Adding oh-my-opencode-slim plugin..."
  , Event.callAddPluginToOpenCodeConfig ]

/-- Branch characterization: host not installed. -/
lemma runInstall_notInstalled (env : Collaborators) (args : InstallArgs)
    (config : InstallConfig) (hI : env.isOpenCodeInstalled = false) :
    runInstall env args config =
      (preflightTrace env config ++
        [ Event.errorLine "OpenCode is not installed on this system."
        , Event.infoLine "Visit https://opencode.ai/docs for installation instructions" ], 1) := by
  simp [runInstall, preflightTrace, hI, printHeader, printStep, printErrorLine, printInfoLine]

/-- The success line after plugin registration. -/
def pluginOkTrace (env : Collaborators) : List Event :=
  [ Event.successLine ("Plugin added " ++ symArrow ++ " " ++ DIM
      ++ tsInterp env.addPluginToOpenCodeConfig.configPath ++ RESET) ]

/-- The step-3 progress line and the auth-plugins call. -/
def authStepTrace : List Event :=
  [ Event.stepLine 3 5 "Adding auth plugins...", Event.callAddAuthPlugins ]

/-- The success line after auth plugins, the step-4 progress line and the
provider-config call. -/
def authOkTrace (env : Collaborators) (config : InstallConfig) : List Event :=
  [ Event.successLine ("Auth plugins configured " ++ symArrow ++ " " ++ DIM
      ++ tsInterp (env.addAuthPlugins config).configPath ++ RESET)
  , Event.stepLine 4 5 "Adding provider configurations..."
  , Event.callAddProviderConfig ]

/-- The success line after provider configuration. -/
def providerOkTrace (env : Collaborators) (config : InstallConfig) : List Event :=
  [ Event.successLine ("Providers configured " ++ symArrow ++ " " ++ DIM
      ++ tsInterp (env.addProviderConfig config).configPath ++ RESET) ]

/-- The lite-config progress line and the writeLiteConfig call, at step
counter `s` of `total`. -/
def liteStepTrace (s : Nat) (total : Nat) : List Event :=
  [ Event.stepLine s total "Writing oh-my-opencode-slim configuration...", Event.callWriteLiteConfig ]

/-- The success line after the lite-config write, followed by the summary
block. -/
def liteOkTrace (env : Collaborators) (config : InstallConfig) : List Event :=
  [ Event.successLine ("Config written " ++ symArrow ++ " " ++ DIM
      ++ tsInterp (env.writeLiteConfig config).configPath ++ RESET)
  , Event.logLine ""
  , Event.logLine (formatConfigSummary config)
  , Event.logLine "" ]

/-- The final success/guidance block. -/
def successBlock (isUpdate : Bool) : List Event :=
  [ Event.logLine (symStar ++ " " ++ BOLD ++ GREEN
      ++ (if isUpdate then "Configuration updated!" else "Installation complete!") ++ RESET)
  , Event.logLine ""
  , Event.logLine (BOLD ++ "Next steps:" ++ RESET)
  , Event.logLine ""
  , Event.logLine "  1. Authenticate with your providers:"
  , Event.logLine ("     " ++ BLUE ++ "$ opencode auth login" ++ RESET)
  , Event.logLine ""
  , Event.logLine "  2. Start OpenCode:"
  , Event.logLine ("     " ++ BLUE ++ "$ opencode" ++ RESET)
  , Event.logLine "" ]

/-- The "no providers configured" warning event. -/
def noProvidersWarning : Event :=
  Event.warnLine "No providers configured. At least one provider is required."

/-- The opaque-error line surfaced for a failed step result. -/
def failedLine (r : StepResult) : Event :=
  Event.errorLine ("Failed: " ++ tsInterp r.error)

/-- Branch characterization: plugin registration fails. -/
lemma runInstall_pluginFailed (env : Collaborators) (args : InstallArgs)
    (config : InstallConfig) (hI : env.isOpenCodeInstalled = true)
    (hP : env.addPluginToOpenCodeConfig.success = false) :
    runInstall env args config =
      (preflightTrace env config ++ pluginStepTrace env config
        ++ [failedLine env.addPluginToOpenCodeConfig], 1) := by
  simp [runInstall, preflightTrace, pluginStepTrace, failedLine, hI, hP,
    printHeader, printStep, printSuccess, printErrorLine]

/-- Branch characterization: Antigravity enabled, auth-plugins step fails. -/
lemma runInstall_authFailed (env : Collaborators) (args : InstallArgs)
    (config : InstallConfig) (hI : env.isOpenCodeInstalled = true)
    (hP : env.addPluginToOpenCodeConfig.success = true)
    (hA : config.hasAntigravity = true)
    (hAu : (env.addAuthPlugins config).success = false) :
    runInstall env args config =
      (preflightTrace env config ++ pluginStepTrace env config ++ pluginOkTrace env
        ++ authStepTrace ++ [failedLine (env.addAuthPlugins config)], 1) := by
  simp [runInstall, preflightTrace, pluginStepTrace, pluginOkTrace, authStepTrace, failedLine,
    hI, hP, hA, hAu, printHeader, printStep, printSuccess, printErrorLine]

/-- Branch characterization: Antigravity enabled, provider-config step
fails. -/
lemma runInstall_providerFailed (env : Collaborators) (args : InstallArgs)
    (config : InstallConfig) (hI : env.isOpenCodeInstalled = true)
    (hP : env.addPluginToOpenCodeConfig.success = true)
    (hA : config.hasAntigravity = true)
    (hAu : (env.addAuthPlugins config).success = true)
    (hPr : (env.addProviderConfig config).success = false) :
    runInstall env args config =
      (preflightTrace env config ++ pluginStepTrace env config ++ pluginOkTrace env
        ++ authStepTrace ++ authOkTrace env config
        ++ [failedLine (env.addProviderConfig config)], 1) := by
  simp [runInstall, preflightTrace, pluginStepTrace, pluginOkTrace, authStepTrace, authOkTrace,
    failedLine, hI, hP, hA, hAu, hPr, printHeader, printStep, printSuccess, printErrorLine]

/-- Branch characterization: Antigravity enabled, lite-config write fails. -/
lemma runInstall_liteFailed_anti (env : Collaborators) (args : InstallArgs)
    (config : InstallConfig) (hI : env.isOpenCodeInstalled = true)
    (hP : env.addPluginToOpenCodeConfig.success = true)
    (hA : config.hasAntigravity = true)
    (hAu : (env.addAuthPlugins config).success = true)
    (hPr : (env.addProviderConfig config).success = true)
    (hL : (env.writeLiteConfig config).success = false) :
    runInstall env args config =
      (preflightTrace env config ++ pluginStepTrace env config ++ pluginOkTrace env
        ++ authStepTrace ++ authOkTrace env config ++ providerOkTrace env config
        ++ liteStepTrace 5 5 ++ [failedLine (env.writeLiteConfig config)], 1) := by
  simp [runInstall, runInstallTail, preflightTrace, pluginStepTrace, pluginOkTrace,
    authStepTrace, authOkTrace, providerOkTrace, liteStepTrace, failedLine,
    hI, hP, hA, hAu, hPr, hL, printHeader, printStep, printSuccess, printErrorLine]

/-- Branch characterization: Antigravity disabled, lite-config write
fails. -/
lemma runInstall_liteFailed_noAnti (env : Collaborators) (args : InstallArgs)
    (config : InstallConfig) (hI : env.isOpenCodeInstalled = true)
    (hP : env.addPluginToOpenCodeConfig.success = true)
    (hA : config.hasAntigravity = false)
    (hL : (env.writeLiteConfig config).success = false) :
    runInstall env args config =
      (preflightTrace env config ++ pluginStepTrace env config ++ pluginOkTrace env
        ++ liteStepTrace 3 3 ++ [failedLine (env.writeLiteConfig config)], 1) := by
  simp [runInstall, runInstallTail, preflightTrace, pluginStepTrace, pluginOkTrace,
    liteStepTrace, failedLine, hI, hP, hA, hL,
    printHeader, printStep, printSuccess, printErrorLine]

/-- Branch characterization: Antigravity enabled, every step succeeds; the
run exits 0 (the capability post-condition cannot fire). -/
lemma runInstall_allOk_anti (env : Collaborators) (args : InstallArgs)
    (config : InstallConfig) (hI : env.isOpenCodeInstalled = true)
    (hP : env.addPluginToOpenCodeConfig.success = true)
    (hA : config.hasAntigravity = true)
    (hAu : (env.addAuthPlugins config).success = true)
    (hPr : (env.addProviderConfig config).success = true)
    (hL : (env.writeLiteConfig config).success = true) :
    runInstall env args config =
      (preflightTrace env config ++ pluginStepTrace env config ++ pluginOkTrace env
        ++ authStepTrace ++ authOkTrace env config ++ providerOkTrace env config
        ++ liteStepTrace 5 5 ++ liteOkTrace env config
        ++ successBlock env.detectCurrentConfig.isInstalled, 0) := by
  simp [runInstall, runInstallTail, preflightTrace, pluginStepTrace, pluginOkTrace,
    authStepTrace, authOkTrace, providerOkTrace, liteStepTrace, liteOkTrace, successBlock,
    hI, hP, hA, hAu, hPr, hL, printHeader, printStep, printSuccess, printErrorLine, printWarning]

/-- Branch characterization: Antigravity disabled, every step succeeds, but
no capability at all is enabled: the post-condition fires, the warning is
the last event, and the run exits 1. -/
lemma runInstall_allOk_noProviders (env : Collaborators) (args : InstallArgs)
    (config : InstallConfig) (hI : env.isOpenCodeInstalled = true)
    (hP : env.addPluginToOpenCodeConfig.success = true)
    (hA : config.hasAntigravity = false)
    (hO : config.hasOpenAI = false)
    (hC : config.hasCerebras = false)
    (hL : (env.writeLiteConfig config).success = true) :
    runInstall env args config =
      (preflightTrace env config ++ pluginStepTrace env config ++ pluginOkTrace env
        ++ liteStepTrace 3 3 ++ liteOkTrace env config ++ [noProvidersWarning], 1) := by
  simp [runInstall, runInstallTail, preflightTrace, pluginStepTrace, pluginOkTrace,
    liteStepTrace, liteOkTrace, noProvidersWarning, hI, hP, hA, hO, hC, hL,
    printHeader, printStep, printSuccess, printErrorLine, printWarning]

/-- Branch characterization: Antigravity disabled, every step succeeds, and
some other capability is enabled: the run exits 0. -/
lemma runInstall_allOk_noAnti (env : Collaborators) (args : InstallArgs)
    (config : InstallConfig) (hI : env.isOpenCodeInstalled = true)
    (hP : env.addPluginToOpenCodeConfig.success = true)
    (hA : config.hasAntigravity = false)
    (hBC : (!config.hasOpenAI && !config.hasCerebras) = false)
    (hL : (env.writeLiteConfig config).success = true) :
    runInstall env args config =
      (preflightTrace env config ++ pluginStepTrace env config ++ pluginOkTrace env
        ++ liteStepTrace 3 3 ++ liteOkTrace env config
        ++ successBlock env.detectCurrentConfig.isInstalled, 0) := by
  simp [runInstall, runInstallTail, preflightTrace, pluginStepTrace, pluginOkTrace,
    liteStepTrace, liteOkTrace, successBlock, hI, hP, hA, hBC, hL,
    printHeader, printStep, printSuccess, printErrorLine, printWarning]

/-- Master case analysis: every run of runInstall falls into exactly one of
the eight control-flow branches characterized above. -/
lemma runInstall_cases (env : Collaborators) (config : InstallConfig) :
    (env.isOpenCodeInstalled = false)
      ∨ (env.isOpenCodeInstalled = true ∧ env.addPluginToOpenCodeConfig.success = false)
      ∨ (env.isOpenCodeInstalled = true ∧ env.addPluginToOpenCodeConfig.success = true
          ∧ config.hasAntigravity = true ∧ (env.addAuthPlugins config).success = false)
      ∨ (env.isOpenCodeInstalled = true ∧ env.addPluginToOpenCodeConfig.success = true
          ∧ config.hasAntigravity = true ∧ (env.addAuthPlugins config).success = true
          ∧ (env.addProviderConfig config).success = false)
      ∨ (env.isOpenCodeInstalled = true ∧ env.addPluginToOpenCodeConfig.success = true
          ∧ config.hasAntigravity = true ∧ (env.addAuthPlugins config).success = true
          ∧ (env.addProviderConfig config).success = true
          ∧ (env.writeLiteConfig config).success = false)
      ∨ (env.isOpenCodeInstalled = true ∧ env.addPluginToOpenCodeConfig.success = true
          ∧ config.hasAntigravity = true ∧ (env.addAuthPlugins config).success = true
          ∧ (env.addProviderConfig config).success = true
          ∧ (env.writeLiteConfig config).success = true)
      ∨ (env.isOpenCodeInstalled = true ∧ env.addPluginToOpenCodeConfig.success = true
          ∧ config.hasAntigravity = false ∧ (env.writeLiteConfig config).success = false)
      ∨ (env.isOpenCodeInstalled = true ∧ env.addPluginToOpenCodeConfig.success = true
          ∧ config.hasAntigravity = false ∧ (env.writeLiteConfig config).success = true) := by
  cases env.isOpenCodeInstalled <;>
    cases env.addPluginToOpenCodeConfig.success <;>
    cases config.hasAntigravity <;>
    cases (env.addAuthPlugins config).success <;>
    cases (env.addProviderConfig config).success <;>
    cases (env.writeLiteConfig config).success <;>
    simp

/-! ### Trace characterizations of runTuiMode and install -/

/-- The canonical configuration resolved from the three interactive
answers. -/
def tuiResolvedConfig (detected : DetectedConfig) (in1 in2 in3 : Option String) : InstallConfig :=
  { hasAntigravity := resolveAnswer (detectedToInitialValues detected).antigravity in1 == "yes"
  , hasOpenAI := resolveAnswer (detectedToInitialValues detected).openai in2 == "yes"
  , hasCerebras := resolveAnswer (detectedToInitialValues detected).cerebras in3 == "yes" }

/-- The output events of the three interactive questions. -/
def tuiQuestionTrace (detected : DetectedConfig) : List Event :=
  [Event.logLine (BOLD ++ "Question 1/3:" ++ RESET)]
    ++ askPromptEvents "Do you have an Antigravity subscription?"
        (detectedToInitialValues detected).antigravity
    ++ [Event.logLine "", Event.logLine (BOLD ++ "Question 2/3:" ++ RESET)]
    ++ askPromptEvents "Do you have access to OpenAI API?"
        (detectedToInitialValues detected).openai
    ++ [Event.logLine "", Event.logLine (BOLD ++ "Question 3/3:" ++ RESET)]
    ++ askPromptEvents "Do you have access to Cerebras API?"
        (detectedToInitialValues detected).cerebras
    ++ [Event.logLine ""]

/-- runTuiMode characterized: its trace is the fixed question trace and its
result is always `some` resolved configuration. -/
lemma runTuiMode_eq (detected : DetectedConfig) (in1 in2 in3 : Option String) :
    runTuiMode detected in1 in2 in3 =
      (tuiQuestionTrace detected, some (tuiResolvedConfig detected in1 in2 in3)) := by
  simp [runTuiMode, tuiQuestionTrace, tuiResolvedConfig]

/-- The preflight trace of install's TUI branch (note the 1/1 step display),
up to the blank line before the questions. -/
def tuiPreflightTrace (env : Collaborators) : List Event :=
  [ Event.callDetectCurrentConfig
  , Event.header env.detectCurrentConfig.isInstalled
  , Event.stepLine 1 1 "Checking OpenCode installation..."
  , Event.callIsOpenCodeInstalled
  , Event.callGetOpenCodeVersion
  , Event.successLine ("OpenCode " ++ env.getOpenCodeVersion.getD "" ++ " detected")
  , Event.logLine "" ]

/-- The trace of install's non-TUI validation-failure branch. -/
def validationFailureTrace (args : InstallArgs) : List Event :=
  [Event.header false, Event.errorLine "Validation failed:"]
    ++ (validateNonTuiArgs args).errors.map
        (fun err => Event.logLine ("  " ++ symBullet ++ " " ++ err))
    ++ [ Event.logLine ""
       , Event.infoLine "Usage: bunx oh-my-opencode-slim install --no-tui --antigravity=<yes|no> --openai=<yes|no> --cerebras=<yes|no>"
       , Event.logLine "" ]

/-- Branch characterization: non-TUI mode with invalid flags. -/
lemma install_nonTui_invalid (env : Collaborators) (args : InstallArgs)
    (in1 in2 in3 : Option String) (htui : args.tui = false)
    (hv : (validateNonTuiArgs args).valid = false) :
    install env args in1 in2 in3 = (validationFailureTrace args, 1) := by
  simp [install, validationFailureTrace, htui, hv,
    printHeader, printErrorLine, printInfoLine]

/-- Branch characterization: non-TUI mode with valid flags delegates to
runInstall on the converted configuration. -/
lemma install_nonTui_valid (env : Collaborators) (args : InstallArgs)
    (in1 in2 in3 : Option String) (htui : args.tui = false)
    (hv : (validateNonTuiArgs args).valid = true) :
    install env args in1 in2 in3 = runInstall env args (argsToConfig args) := by
  simp [install, htui, hv]

/-- Branch characterization: TUI mode, host not installed: the run stops at
the preflight check, before any question and before runInstall. -/
lemma install_tui_notInstalled (env : Collaborators) (args : InstallArgs)
    (in1 in2 in3 : Option String) (htui : args.tui = true)
    (hI : env.isOpenCodeInstalled = false) :
    install env args in1 in2 in3 =
      ([ Event.callDetectCurrentConfig
       , Event.header env.detectCurrentConfig.isInstalled
       , Event.stepLine 1 1 "Checking OpenCode installation..."
       , Event.callIsOpenCodeInstalled
       , Event.errorLine "OpenCode is not installed on this system."
       , Event.infoLine "Visit https://opencode.ai/docs for installation instructions" ], 1) := by
  simp [install, htui, hI, printHeader, printStep, printErrorLine, printInfoLine]

/-- Branch characterization: TUI mode, host installed: preflight, then the
three questions, then runInstall on the resolved configuration. -/
lemma install_tui_installed (env : Collaborators) (args : InstallArgs)
    (in1 in2 in3 : Option String) (htui : args.tui = true)
    (hI : env.isOpenCodeInstalled = true) :
    install env args in1 in2 in3 =
      (tuiPreflightTrace env ++ tuiQuestionTrace env.detectCurrentConfig
          ++ (runInstall env args (tuiResolvedConfig env.detectCurrentConfig in1 in2 in3)).1,
        (runInstall env args (tuiResolvedConfig env.detectCurrentConfig in1 in2 in3)).2) := by
  simp [install, tuiPreflightTrace, htui, hI, runTuiMode_eq,
    printHeader, printStep, printSuccess]

/-! ### Small list facts -/

lemma filterMap_const_none {α β : Type} (l : List α) :
    l.filterMap (fun _ => (none : Option β)) = [] := by
  induction l <;> simp [*]

lemma headersOf_append (a b : List Event) :
    headersOf (a ++ b) = headersOf a ++ headersOf b := by
  simp [headersOf, List.filterMap_append]

/-- C1: whenever a delegated step reports failure, runInstall returns exit
outcome 1 immediately and no collaborator belonging to a later step is ever
invoked in the run. -/
theorem runInstall_halts_on_first_failure (env : Collaborators) (args : InstallArgs)
    (config : InstallConfig) (hI : env.isOpenCodeInstalled = true) :
    (env.addPluginToOpenCodeConfig.success = false →
        (runInstall env args config).2 = 1
          ∧ (runInstall env args config).1.countP isAuthCall = 0
          ∧ (runInstall env args config).1.countP isProviderCall = 0
          ∧ (runInstall env args config).1.countP isLiteCall = 0)
      ∧ (env.addPluginToOpenCodeConfig.success = true → config.hasAntigravity = true →
          (env.addAuthPlugins config).success = false →
          (runInstall env args config).2 = 1
            ∧ (runInstall env args config).1.countP isProviderCall = 0
            ∧ (runInstall env args config).1.countP isLiteCall = 0)
      ∧ (env.addPluginToOpenCodeConfig.success = true → config.hasAntigravity = true →
          (env.addAuthPlugins config).success = true →
          (env.addProviderConfig config).success = false →
          (runInstall env args config).2 = 1
            ∧ (runInstall env args config).1.countP isLiteCall = 0)
      ∧ (env.addPluginToOpenCodeConfig.success = true →
          (config.hasAntigravity = true →
            (env.addAuthPlugins config).success = true
              ∧ (env.addProviderConfig config).success = true) →
          (env.writeLiteConfig config).success = false →
          (runInstall env args config).2 = 1) := by
  refine ⟨?_, ?_, ?_, ?_⟩
  · intro hP
    rw [runInstall_pluginFailed env args config hI hP]
    simp [preflightTrace, pluginStepTrace, failedLine, isAuthCall, isProviderCall, isLiteCall,
      List.countP_append, List.countP_cons]
  · intro hP hA hAu
    rw [runInstall_authFailed env args config hI hP hA hAu]
    simp [preflightTrace, pluginStepTrace, pluginOkTrace, authStepTrace, failedLine,
      isProviderCall, isLiteCall, List.countP_append, List.countP_cons]
  · intro hP hA hAu hPr
    rw [runInstall_providerFailed env args config hI hP hA hAu hPr]
    simp [preflightTrace, pluginStepTrace, pluginOkTrace, authStepTrace, authOkTrace,
      failedLine, isLiteCall, List.countP_append, List.countP_cons]
  · intro hP hcond hL
    cases hA : config.hasAntigravity
    · rw [runInstall_liteFailed_noAnti env args config hI hP hA hL]
    · obtain ⟨hAu, hPr⟩ := hcond hA
      rw [runInstall_liteFailed_anti env args config hI hP hA hAu hPr hL]

/-- C1 witness: concrete runs in which step 2, 3, 4 or 5 fails: each exits 1
and skips every later collaborator. -/
theorem runInstall_halts_on_first_failure_witness :
    ((runInstall envPluginFail argsAnti cfgAnti).2 = 1
        ∧ (runInstall envPluginFail argsAnti cfgAnti).1.countP isLiteCall = 0)
      ∧ ((runInstall envAuthFail argsAnti cfgAnti).2 = 1
          ∧ (runInstall envAuthFail argsAnti cfgAnti).1.countP isProviderCall = 0)
      ∧ ((runInstall envProviderFail argsAnti cfgAnti).2 = 1
          ∧ (runInstall envProviderFail argsAnti cfgAnti).1.countP isLiteCall = 0)
      ∧ (runInstall envLiteFail argsAnti cfgAnti).2 = 1 := by
  have h1 := (runInstall_halts_on_first_failure envPluginFail argsAnti cfgAnti rfl).1 rfl
  have h2 := (runInstall_halts_on_first_failure envAuthFail argsAnti cfgAnti rfl).2.1 rfl rfl rfl
  have h3 :=
    (runInstall_halts_on_first_failure envProviderFail argsAnti cfgAnti rfl).2.2.1 rfl rfl rfl rfl
  have h4 := (runInstall_halts_on_first_failure envLiteFail argsAnti cfgAnti rfl).2.2.2 rfl
    (fun _ => ⟨rfl, rfl⟩) rfl
  exact ⟨⟨h1.1, h1.2.2.2⟩, ⟨h2.1, h2.2.1⟩, ⟨h3.1, h3.2⟩, h4⟩

/-- C2: in either mode, when isOpenCodeInstalled resolves false the run
exits 1 and no registration/persistence collaborator
(addPluginToOpenCodeConfig, addAuthPlugins, addProviderConfig,
writeLiteConfig) is ever invoked. -/
theorem not_installed_exits_one_no_calls (env : Collaborators) (args : InstallArgs)
    (config : InstallConfig) (in1 in2 in3 : Option String)
    (hI : env.isOpenCodeInstalled = false) :
    ((runInstall env args config).2 = 1
        ∧ (runInstall env args config).1.countP isRegPersistCall = 0)
      ∧ ((install env args in1 in2 in3).2 = 1
          ∧ (install env args in1 in2 in3).1.countP isRegPersistCall = 0) := by
  refine ⟨?_, ?_⟩
  · rw [runInstall_notInstalled env args config hI]
    simp [preflightTrace, isRegPersistCall, List.countP_append, List.countP_cons]
  · cases htui : args.tui
    · cases hv : (validateNonTuiArgs args).valid
      · rw [install_nonTui_invalid env args in1 in2 in3 htui hv]
        simp [validationFailureTrace, isRegPersistCall, List.countP_append, List.countP_cons,
          List.countP_map, Function.comp]
      · rw [install_nonTui_valid env args in1 in2 in3 htui hv,
          runInstall_notInstalled env args (argsToConfig args) hI]
        simp [preflightTrace, isRegPersistCall, List.countP_append, List.countP_cons]
    · rw [install_tui_notInstalled env args in1 in2 in3 htui hI]
      simp [isRegPersistCall, List.countP_append, List.countP_cons]

/-- C2 witness: with the host absent, both a TUI run and a direct
orchestration run exit 1 without invoking any registration/persistence
collaborator. -/
theorem not_installed_exits_one_no_calls_witness :
    (runInstall envNotInstalled argsAnti cfgAnti).2 = 1
      ∧ (runInstall envNotInstalled argsAnti cfgAnti).1.countP isRegPersistCall = 0
      ∧ (install envNotInstalled argsTui none none none).2 = 1
      ∧ (install envNotInstalled argsTui none none none).1.countP isRegPersistCall = 0 := by
  have h :=
    not_installed_exits_one_no_calls envNotInstalled argsTui cfgAnti none none none rfl
  have h' :=
    not_installed_exits_one_no_calls envNotInstalled argsAnti cfgAnti none none none rfl
  exact ⟨h'.1.1, h'.1.2, h.2.1, h.2.2⟩

/-- C3: when every capability flag is false and every delegated step
succeeds, the run still exits 1; the "no providers configured" warning is
the final event of the trace, after the lite-config persistence call (which
did run, exactly once). -/
theorem no_providers_post_condition (env : Collaborators) (args : InstallArgs)
    (config : InstallConfig) (hI : env.isOpenCodeInstalled = true)
    (hA : config.hasAntigravity = false) (hO : config.hasOpenAI = false)
    (hC : config.hasCerebras = false)
    (hP : env.addPluginToOpenCodeConfig.success = true)
    (hL : (env.writeLiteConfig config).success = true) :
    (runInstall env args config).2 = 1
      ∧ (runInstall env args config).1.getLast?
          = some (Event.warnLine "No providers configured. At least one provider is required.")
      ∧ (runInstall env args config).1.countP isLiteCall = 1 := by
  rw [runInstall_allOk_noProviders env args config hI hP hA hO hC hL]
  refine ⟨rfl, ?_, ?_⟩ <;>
    simp [preflightTrace, pluginStepTrace, pluginOkTrace, liteStepTrace, liteOkTrace,
      noProvidersWarning, isLiteCall, List.countP_append, List.countP_cons,
      List.getLast?_append]

/-- C3 witness: an all-success run with every capability declined exits 1
and ends with the warning. -/
theorem no_providers_post_condition_witness :
    (runInstall envAllOk argsAnti cfgNone).2 = 1
      ∧ (runInstall envAllOk argsAnti cfgNone).1.getLast?
          = some (Event.warnLine "No providers configured. At least one provider is required.") := by
  have h := no_providers_post_condition envAllOk argsAnti cfgNone rfl rfl rfl rfl rfl rfl
  exact ⟨h.1, h.2.1⟩

/-- C4: every step-progress line runInstall displays carries the same total
step count, 5 when hasAntigravity is true and 3 otherwise, fixed from the
configuration before the first step message. -/
theorem step_total_constant (env : Collaborators) (args : InstallArgs)
    (config : InstallConfig) (i total : Nat) (msg : String)
    (h : Event.stepLine i total msg ∈ (runInstall env args config).1) :
    total = if config.hasAntigravity then 5 else 3 := by
  rcases runInstall_cases env config with
    hI | ⟨hI, hP⟩ | ⟨hI, hP, hA, hAu⟩ | ⟨hI, hP, hA, hAu, hPr⟩ |
    ⟨hI, hP, hA, hAu, hPr, hL⟩ | ⟨hI, hP, hA, hAu, hPr, hL⟩ | ⟨hI, hP, hA, hL⟩ | ⟨hI, hP, hA, hL⟩
  · rw [runInstall_notInstalled env args config hI] at h
    simp [preflightTrace] at h
    tauto
  · rw [runInstall_pluginFailed env args config hI hP] at h
    simp [preflightTrace, pluginStepTrace, failedLine] at h
    tauto
  · rw [runInstall_authFailed env args config hI hP hA hAu] at h
    simp [preflightTrace, pluginStepTrace, pluginOkTrace, authStepTrace, failedLine, hA] at h
    simp [hA]
    tauto
  · rw [runInstall_providerFailed env args config hI hP hA hAu hPr] at h
    simp [preflightTrace, pluginStepTrace, pluginOkTrace, authStepTrace, authOkTrace,
      failedLine, hA] at h
    simp [hA]
    tauto
  · rw [runInstall_liteFailed_anti env args config hI hP hA hAu hPr hL] at h
    simp [preflightTrace, pluginStepTrace, pluginOkTrace, authStepTrace, authOkTrace,
      providerOkTrace, liteStepTrace, failedLine, hA] at h
    simp [hA]
    tauto
  · rw [runInstall_allOk_anti env args config hI hP hA hAu hPr hL] at h
    simp [preflightTrace, pluginStepTrace, pluginOkTrace, authStepTrace, authOkTrace,
      providerOkTrace, liteStepTrace, liteOkTrace, successBlock, failedLine, hA] at h
    simp [hA]
    tauto
  · rw [runInstall_liteFailed_noAnti env args config hI hP hA hL] at h
    simp [preflightTrace, pluginStepTrace, pluginOkTrace, liteStepTrace, failedLine, hA] at h
    simp [hA]
    tauto
  · cases hBC : (!config.hasOpenAI && !config.hasCerebras)
    · rw [runInstall_allOk_noAnti env args config hI hP hA hBC hL] at h
      simp [preflightTrace, pluginStepTrace, pluginOkTrace, liteStepTrace, liteOkTrace,
        successBlock, hA] at h
      simp [hA]
      tauto
    · simp only [Bool.and_eq_true, Bool.not_eq_true'] at hBC
      rw [runInstall_allOk_noProviders env args config hI hP hA hBC.1 hBC.2 hL] at h
      simp [preflightTrace, pluginStepTrace, pluginOkTrace, liteStepTrace, liteOkTrace,
        noProvidersWarning, hA] at h
      simp [hA]
      tauto

/-- C4 witness: a concrete Antigravity run shows 5 as the displayed total. -/
theorem step_total_constant_witness :
    Event.stepLine 1 5 "Checking OpenCode installation..."
        ∈ (runInstall envAllOk argsAnti cfgAnti).1
      ∧ (5 = if cfgAnti.hasAntigravity then 5 else 3) := by
  refine ⟨by decide, ?_⟩
  exact step_total_constant envAllOk argsAnti cfgAnti 1 5
    "Checking OpenCode installation..." (by decide)

/-- runInstall renders the header exactly once, at the very start, framed by
the isInstalled flag of the configuration snapshot it re-detects. -/
lemma runInstall_headers (env : Collaborators) (args : InstallArgs) (config : InstallConfig) :
    headersOf (runInstall env args config).1 = [env.detectCurrentConfig.isInstalled] := by
  rcases runInstall_cases env config with
    hI | ⟨hI, hP⟩ | ⟨hI, hP, hA, hAu⟩ | ⟨hI, hP, hA, hAu, hPr⟩ |
    ⟨hI, hP, hA, hAu, hPr, hL⟩ | ⟨hI, hP, hA, hAu, hPr, hL⟩ | ⟨hI, hP, hA, hL⟩ | ⟨hI, hP, hA, hL⟩
  · rw [runInstall_notInstalled env args config hI]
    simp [headersOf, headerFraming, preflightTrace]
  · rw [runInstall_pluginFailed env args config hI hP]
    simp [headersOf, headerFraming, preflightTrace, pluginStepTrace, failedLine]
  · rw [runInstall_authFailed env args config hI hP hA hAu]
    simp [headersOf, headerFraming, preflightTrace, pluginStepTrace, pluginOkTrace,
      authStepTrace, failedLine]
  · rw [runInstall_providerFailed env args config hI hP hA hAu hPr]
    simp [headersOf, headerFraming, preflightTrace, pluginStepTrace, pluginOkTrace,
      authStepTrace, authOkTrace, failedLine]
  · rw [runInstall_liteFailed_anti env args config hI hP hA hAu hPr hL]
    simp [headersOf, headerFraming, preflightTrace, pluginStepTrace, pluginOkTrace,
      authStepTrace, authOkTrace, providerOkTrace, liteStepTrace, failedLine]
  · rw [runInstall_allOk_anti env args config hI hP hA hAu hPr hL]
    simp [headersOf, headerFraming, preflightTrace, pluginStepTrace, pluginOkTrace,
      authStepTrace, authOkTrace, providerOkTrace, liteStepTrace, liteOkTrace, successBlock]
  · rw [runInstall_liteFailed_noAnti env args config hI hP hA hL]
    simp [headersOf, headerFraming, preflightTrace, pluginStepTrace, pluginOkTrace,
      liteStepTrace, failedLine]
  · cases hBC : (!config.hasOpenAI && !config.hasCerebras)
    · rw [runInstall_allOk_noAnti env args config hI hP hA hBC hL]
      simp [headersOf, headerFraming, preflightTrace, pluginStepTrace, pluginOkTrace,
        liteStepTrace, liteOkTrace, successBlock]
    · simp only [Bool.and_eq_true, Bool.not_eq_true'] at hBC
      rw [runInstall_allOk_noProviders env args config hI hP hA hBC.1 hBC.2 hL]
      simp [headersOf, headerFraming, preflightTrace, pluginStepTrace, pluginOkTrace,
        liteStepTrace, liteOkTrace, noProvidersWarning]

/-- C7 counterexample: in an interactive run that passes preflight, the
header is rendered twice (once by install before the questions, once by
runInstall), not exactly once as claimed. -/
theorem header_rendered_twice_counterexample :
    (headersOf (install envAllOk argsTui none none none).1).length = 2 := by
  decide

/-- C7 amended: the header framing always comes from
detectCurrentConfig().isInstalled read before any step of the orchestration,
except that a non-TUI validation failure hardcodes install framing; the
header is rendered exactly once per run in non-TUI mode and in a TUI run
failing preflight, but twice in a TUI run that passes preflight. -/
theorem install_header_framing (env : Collaborators) (args : InstallArgs)
    (in1 in2 in3 : Option String) :
    (args.tui = false → (validateNonTuiArgs args).valid = true →
        headersOf (install env args in1 in2 in3).1 = [env.detectCurrentConfig.isInstalled])
      ∧ (args.tui = false → (validateNonTuiArgs args).valid = false →
          headersOf (install env args in1 in2 in3).1 = [false])
      ∧ (args.tui = true → env.isOpenCodeInstalled = true →
          headersOf (install env args in1 in2 in3).1
            = [env.detectCurrentConfig.isInstalled, env.detectCurrentConfig.isInstalled])
      ∧ (args.tui = true → env.isOpenCodeInstalled = false →
          headersOf (install env args in1 in2 in3).1
            = [env.detectCurrentConfig.isInstalled]) := by
  refine ⟨?_, ?_, ?_, ?_⟩
  · intro htui hv
    rw [install_nonTui_valid env args in1 in2 in3 htui hv]
    exact runInstall_headers env args (argsToConfig args)
  · intro htui hv
    rw [install_nonTui_invalid env args in1 in2 in3 htui hv]
    simp [headersOf, headerFraming, validationFailureTrace, List.filterMap_append,
      List.filterMap_map, Function.comp, filterMap_const_none]
  · intro htui hI
    rw [install_tui_installed env args in1 in2 in3 htui hI]
    have hrun := runInstall_headers env args (tuiResolvedConfig env.detectCurrentConfig in1 in2 in3)
    simp only [headersOf_append, hrun]
    simp [headersOf, headerFraming, tuiPreflightTrace, tuiQuestionTrace, askPromptEvents]
  · intro htui hI
    rw [install_tui_notInstalled env args in1 in2 in3 htui hI]
    simp [headersOf, headerFraming]

/-- C7 witness: a concrete TUI run renders the header twice, both times
framed as a fresh install. -/
theorem install_header_framing_witness :
    headersOf (install envAllOk argsTui none none none).1 = [false, false] := by
  have h := (install_header_framing envAllOk argsTui none none none).2.2.1 rfl rfl
  simpa [envAllOk, detectedFresh] using h

/-- Under a successful preflight, each of the preflight collaborators
appears exactly once in runInstall's trace, in every branch. -/
lemma runInstall_preflight_counts (env : Collaborators) (args : InstallArgs)
    (config : InstallConfig) (hI : env.isOpenCodeInstalled = true) :
    (runInstall env args config).1.countP isDetectCall = 1
      ∧ (runInstall env args config).1.countP isInstalledCall = 1
      ∧ (runInstall env args config).1.countP isVersionCall = 1 := by
  rcases runInstall_cases env config with
    hI' | ⟨hI', hP⟩ | ⟨hI', hP, hA, hAu⟩ | ⟨hI', hP, hA, hAu, hPr⟩ |
    ⟨hI', hP, hA, hAu, hPr, hL⟩ | ⟨hI', hP, hA, hAu, hPr, hL⟩ | ⟨hI', hP, hA, hL⟩ |
    ⟨hI', hP, hA, hL⟩
  · rw [hI] at hI'
    exact absurd hI' (by decide)
  · rw [runInstall_pluginFailed env args config hI' hP]
    simp [preflightTrace, pluginStepTrace, failedLine, isDetectCall, isInstalledCall,
      isVersionCall, List.countP_append, List.countP_cons]
  · rw [runInstall_authFailed env args config hI' hP hA hAu]
    simp [preflightTrace, pluginStepTrace, pluginOkTrace, authStepTrace, failedLine,
      isDetectCall, isInstalledCall, isVersionCall, List.countP_append, List.countP_cons]
  · rw [runInstall_providerFailed env args config hI' hP hA hAu hPr]
    simp [preflightTrace, pluginStepTrace, pluginOkTrace, authStepTrace, authOkTrace,
      failedLine, isDetectCall, isInstalledCall, isVersionCall, List.countP_append,
      List.countP_cons]
  · rw [runInstall_liteFailed_anti env args config hI' hP hA hAu hPr hL]
    simp [preflightTrace, pluginStepTrace, pluginOkTrace, authStepTrace, authOkTrace,
      providerOkTrace, liteStepTrace, failedLine, isDetectCall, isInstalledCall,
      isVersionCall, List.countP_append, List.countP_cons]
  · rw [runInstall_allOk_anti env args config hI' hP hA hAu hPr hL]
    simp [preflightTrace, pluginStepTrace, pluginOkTrace, authStepTrace, authOkTrace,
      providerOkTrace, liteStepTrace, liteOkTrace, successBlock, isDetectCall,
      isInstalledCall, isVersionCall, List.countP_append, List.countP_cons]
  · rw [runInstall_liteFailed_noAnti env args config hI' hP hA hL]
    simp [preflightTrace, pluginStepTrace, pluginOkTrace, liteStepTrace, failedLine,
      isDetectCall, isInstalledCall, isVersionCall, List.countP_append, List.countP_cons]
  · cases hBC : (!config.hasOpenAI && !config.hasCerebras)
    · rw [runInstall_allOk_noAnti env args config hI' hP hA hBC hL]
      simp [preflightTrace, pluginStepTrace, pluginOkTrace, liteStepTrace, liteOkTrace,
        successBlock, isDetectCall, isInstalledCall, isVersionCall, List.countP_append,
        List.countP_cons]
    · simp only [Bool.and_eq_true, Bool.not_eq_true'] at hBC
      rw [runInstall_allOk_noProviders env args config hI' hP hA hBC.1 hBC.2 hL]
      simp [preflightTrace, pluginStepTrace, pluginOkTrace, liteStepTrace, liteOkTrace,
        noProvidersWarning, isDetectCall, isInstalledCall, isVersionCall,
        List.countP_append, List.countP_cons]

/-- C9: in a TUI run in which the host is installed, detectCurrentConfig,
isOpenCodeInstalled and getOpenCodeVersion are each invoked exactly twice:
once by install before the questions and once more by runInstall. -/
theorem tui_preflight_collaborators_twice (env : Collaborators) (args : InstallArgs)
    (in1 in2 in3 : Option String) (htui : args.tui = true)
    (hI : env.isOpenCodeInstalled = true) :
    (install env args in1 in2 in3).1.countP isDetectCall = 2
      ∧ (install env args in1 in2 in3).1.countP isInstalledCall = 2
      ∧ (install env args in1 in2 in3).1.countP isVersionCall = 2 := by
  rw [install_tui_installed env args in1 in2 in3 htui hI]
  obtain ⟨h1, h2, h3⟩ :=
    runInstall_preflight_counts env args (tuiResolvedConfig env.detectCurrentConfig in1 in2 in3) hI
  simp [tuiPreflightTrace, tuiQuestionTrace, askPromptEvents, isDetectCall, isInstalledCall,
    isVersionCall, List.countP_append, List.countP_cons, h1, h2, h3]

/-- C9 witness: a concrete installed-host TUI run invokes each preflight
collaborator exactly twice. -/
theorem tui_preflight_collaborators_twice_witness :
    (install envAllOk argsTui none none none).1.countP isDetectCall = 2
      ∧ (install envAllOk argsTui none none none).1.countP isInstalledCall = 2
      ∧ (install envAllOk argsTui none none none).1.countP isVersionCall = 2 :=
  tui_preflight_collaborators_twice envAllOk argsTui none none none rfl rfl

end OMOS
